import Mathlib

/-!
Shallow embedding of the reconciliation and synchronization engine of
sebsync (src/sebsync.py) and proofs about it.  External effects (HTTP
responses, file stats, hashes, the parse of a downloaded file) are passed
in as explicit data; each definition's doc comment names the Python
function it embeds.
-/

namespace Sebsync

/-- Metadata for an ebook in the Standard Ebooks OPDS catalog (dataclass
RemoteEbook in sebsync.py).  Timestamps are modelled as integer epoch
seconds at second precision. -/
structure RemoteEbook where
  id : String
  title : String
  author : String
  href : String
  updated : Int
deriving DecidableEq

/-- Metadata for an ebook in the local directory (dataclass LocalEbook in
sebsync.py); the path is kept as a plain string. -/
structure LocalEbook where
  id : String
  title : String
  path : String
  modified : Int
deriving DecidableEq

/-- Reported file statuses (class Status in sebsync.py), without the
terminal colouring. -/
inductive Verdict
  | current
  | new
  | update
  | removed
  | outdated
  | extra
  | unknown
deriving DecidableEq

/-- Observable reporting and install events emitted by the engine:
report models an echo_status call, download models a download_ebook call
(which echoes its status and then installs to the path). -/
inductive Event
  | report (path : String) (v : Verdict)
  | download (href : String) (path : String) (v : Verdict)
deriving DecidableEq

/-- Network operations issued through the request helper. -/
inductive NetOp
  | head (url : String)
  | get (url : String)
deriving DecidableEq

/-- Command line options consulted by the engine (dataclass Options in
sebsync.py, restricted to the fields the embedded code reads). -/
structure Opts where
  update : Bool
  forceUpdate : Bool
  remove : Bool
  dryRun : Bool
  verbose : Bool
  downloads : String
deriving DecidableEq

/-- Fixed retry bound of the request helper (retry_count in
sebsync.py's request). -/
def retry_count : Nat := 10

/-- Loop body of request in sebsync.py: iterate over the attempt numbers,
sending one HTTP request per attempt (statuses gives the response status
of each attempt) and breaking as soon as a response is not 429; returns
the pair of the loop variable's final value and the last status seen,
exactly as the Python for-loop leaves them. -/
def request_loop (statuses : Nat → Nat) : List Nat → Nat × Nat → Nat × Nat
  | [], acc => acc
  | r :: rest, acc =>
    let s := statuses r
    if s ≠ 429 then (r, s)
    else
      let _ := acc
      request_loop statuses rest (r, s)

/-- Embedding of request in sebsync.py: run the retry loop over attempts
1..retry_count, then raise "Too many retries. Aborting." when the loop
variable equals retry_count, otherwise return the response status to the
caller. -/
def request (statuses : Nat → Nat) : Except String Nat :=
  let rs := request_loop statuses (List.range' 1 retry_count) (0, 0)
  if rs.1 = retry_count then Except.error ("Too many retries. Aborting.")
  else Except.ok rs.2

/-- Helper for pySplit: accumulate the current word (in reverse) while
walking the character list, emitting a word at each whitespace run. -/
def pySplitAux : List Char → List Char → List String
  | [], [] => []
  | [], acc => [String.mk acc.reverse]
  | c :: rest, acc =>
    if c.isWhitespace then
      match acc with
      | [] => pySplitAux rest []
      | _ => String.mk acc.reverse :: pySplitAux rest []
    else pySplitAux rest (c :: acc)

/-- Python str.split() with no argument: split on runs of whitespace,
with no empty pieces and ignoring leading and trailing whitespace. -/
def pySplit (s : String) : List String := pySplitAux s.data []

/-- Python str.rstrip with a one-character argument: remove every
occurrence of that character from the right end of the string. -/
def pyRstrip (strip : Char) (s : String) : String :=
  String.mk ((s.data.reverse.dropWhile (fun c => c = strip)).reverse)

/-- Python sep.join(parts): concatenate parts with sep between them. -/
def pyJoin (sep : String) : List String → String
  | [] => ""
  | [x] => x
  | x :: rest => x ++ sep ++ pyJoin sep rest

/-- Author name suffixes recognised by sortable_author in sebsync.py. -/
def author_suffixes : List String := ["Jr.", "Sr.", "Esq.", "PhD"]

/-- Return the sortable name of the given author (sortable_author in
sebsync.py).  Python list.pop() is modelled as getLast! plus dropLast. -/
def sortable_author (author : String) : String :=
  let split := pySplit author
  if split.length < 2 then author
  else
    let last0 := pyRstrip ',' (split.getLast!)
    let split0 := split.dropLast
    let hasSuffix := author_suffixes.contains last0
    let last1 := if hasSuffix then split0.getLast! else last0
    let split1 := if hasSuffix then split0.dropLast else split0
    let result := last1
    let result := if split1.isEmpty then result
      else result ++ ", " ++ pyJoin (" ") split1
    if hasSuffix then result ++ ", " ++ last0 else result

/-- Character table of ebook_filename in sebsync.py: every pattern and
replacement in its replace dict is a single character, so the dict is
modelled as a character map. -/
def filename_replace (c : Char) : Char :=
  if c = '/' then '-'
  else if c = '‘' then '\''
  else if c = '’' then '\''
  else if c = '"' then '\''
  else if c = '“' then '\''
  else if c = '”' then '\''
  else c

/-- Split a string at every occurrence of a character, keeping empty
pieces (Python str.split with a separator argument). -/
def splitCharAux (d : Char) : List Char → List Char → List String
  | [], acc => [String.mk acc.reverse]
  | c :: rest, acc =>
    if c = d then String.mk acc.reverse :: splitCharAux d rest []
    else splitCharAux d rest (c :: acc)

/-- Last path segment of a URL: models Path(urlparse(url).path).name in
ebook_filename for URLs without a query or fragment part. -/
def urlBasename (url : String) : String :=
  (splitCharAux '/' url.data []).getLast!

/-- Download file naming convention (the click.Choice for the naming
option). -/
inductive Naming
  | standard
  | sortable
deriving DecidableEq

/-- Return an EPUB file name for a remote ebook (ebook_filename in
sebsync.py). -/
def ebook_filename (naming : Naming) (ebook : RemoteEbook) : String :=
  let result :=
    match naming with
    | Naming.standard => urlBasename ebook.href
    | Naming.sortable =>
      sortable_author ebook.author ++ " - " ++ pyRstrip '.' ebook.title ++ ".epub"
  String.mk (result.data.map filename_replace)

/-- Filesystem facts about the local file that books_are_different reads
through local_ebook.path.stat(): its modification time (epoch seconds)
and byte size, plus the Content-Length a HEAD request would report. -/
structure StatEnv where
  fileMtime : Int
  fileSize : Nat
  contentLength : Nat
deriving DecidableEq

/-- Embedding of books_are_different in sebsync.py, returning the
decision together with the list of network operations issued: tier 1
compares the metadata timestamps, tier 2 the remote update time against
the file's mtime, and tier 3 issues one HEAD request and compares its
Content-Length against the file size. -/
def books_are_different (l : LocalEbook) (r : RemoteEbook) (env : StatEnv) :
    Bool × List NetOp :=
  if r.updated = l.modified then (false, [])
  else if env.fileMtime < r.updated then (true, [])
  else if env.contentLength ≠ env.fileSize then (true, [NetOp.head r.href])
  else (false, [NetOp.head r.href])

/-- Embedding of is_deprecated in sebsync.py, returning the decision
together with the network operations issued.  The redirect-non-following
HEAD request to the local ebook's identifier URL is always sent; status
and location stand for the response's status code and Location header,
and remoteKeys for the keys of the remote_ebooks dict.  301 is the
permanent-redirect status the code recognises. -/
def is_deprecated (le : LocalEbook) (status : Nat) (location : String)
    (remoteKeys : List String) : Bool × List NetOp :=
  (status == 301 && remoteKeys.contains ("url:" ++ location), [NetOp.head le.id])

/-- Embedding of remove in sebsync.py over a file-existence map: echo
the REMOVE status, then unlink the path unless dry_run is set. -/
def remove (dryRun : Bool) (fs : String → Bool) (path : String) :
    (String → Bool) × List Event :=
  (fun q => if dryRun then fs q else if q = path then false else fs q,
   [Event.report path Verdict.removed])

/-- File path split into everything before the extension and the
extension of its final component, mirroring pathlib's stem/suffix pair;
pathlib's with_suffix swaps the suffix field. -/
structure SPath where
  base : String
  suffix : String
deriving DecidableEq

/-- Python Path.with_suffix: replace the extension of the final
component. -/
def withSuffix (p : SPath) (s : String) : SPath := SPath.mk p.base s

/-- Reserved temporary extension used by download_ebook in sebsync.py. -/
def sebsync_suffix : String := ".sebsync"

/-- Contents of the filesystem, as an optional file content per path. -/
def FS : Type := SPath → Option String

/-- Write (or delete, with none) one path of a filesystem. -/
def fsUpdate (fs : FS) (p : SPath) (c : Option String) : FS :=
  fun q => if q = p then c else fs q

/-- Environment of one download_ebook call: the dry_run option, the GET
response status and streamed chunks, an optional interruption point
(process killed after that many chunks were written), and the behaviour
of get_local_ebook_metadata on the written file (error models a raised
exception, ok none a file without a Standard Ebooks identifier). -/
structure DlIn where
  url : String
  dryRun : Bool
  status : Nat
  chunks : List String
  kill : Option Nat
  parse : String → Except Unit (Option LocalEbook)

/-- Outcome of download_ebook, carrying the resulting filesystem: ok is
a normal return, errDownload the non-200 ClickException, errCorrupt the
corrupt-file ClickException, killed a process interruption mid-write. -/
inductive DlOut
  | ok (fs : FS)
  | errDownload (fs : FS)
  | errCorrupt (fs : FS)
  | killed (fs : FS)

/-- Filesystem carried by a download outcome. -/
def DlOut.fs : DlOut → FS
  | DlOut.ok f => f
  | DlOut.errDownload f => f
  | DlOut.errCorrupt f => f
  | DlOut.killed f => f

/-- Whether a download outcome is a normal return. -/
def DlOut.isOk : DlOut → Bool
  | DlOut.ok _ => true
  | _ => false

/-- Whether a download outcome is the corrupt-file ClickException. -/
def DlOut.isCorrupt : DlOut → Bool
  | DlOut.errCorrupt _ => true
  | _ => false

/-- Concatenation of the streamed chunks written to the temp file. -/
def concatChunks (chunks : List String) : String :=
  chunks.foldl (fun a b => a ++ b) ""

/-- Whether get_local_ebook_metadata returned an ebook record (neither
raised nor returned None). -/
def parse_ok : Except Unit (Option LocalEbook) → Bool
  | Except.ok (some _) => true
  | _ => false

/-- Embedding of download_ebook in sebsync.py: echo the status (not an
event here), return at once under dry_run, raise on a non-200 response,
stream the body into the sibling path with the reserved .sebsync suffix,
re-parse the written file and raise the corrupt-file error when parsing
raises or yields no record (leaving the temp file), and finally rename
the temp file over the destination.  The second component lists the
network operations issued. -/
def download_ebook (fs : FS) (path : SPath) (inp : DlIn) : DlOut × List NetOp :=
  if inp.dryRun then (DlOut.ok fs, [])
  else if inp.status ≠ 200 then (DlOut.errDownload fs, [NetOp.get inp.url])
  else
    let download := withSuffix path sebsync_suffix
    match inp.kill with
    | some k =>
      (DlOut.killed (fsUpdate fs download (some (concatChunks (inp.chunks.take k)))),
       [NetOp.get inp.url])
    | none =>
      let c := concatChunks inp.chunks
      let fs1 := fsUpdate fs download (some c)
      match inp.parse c with
      | Except.error _ => (DlOut.errCorrupt fs1, [NetOp.get inp.url])
      | Except.ok none => (DlOut.errCorrupt fs1, [NetOp.get inp.url])
      | Except.ok (some _) =>
        (DlOut.ok (fsUpdate (fsUpdate fs1 download none) path (some c)),
         [NetOp.get inp.url])

/-- Behaviour of get_local_ebook_metadata on a downloaded azw3 file: the
function opens the file with zipfile.ZipFile, and an azw3 file is not a
zip archive, so ZipFile raises for every such file. -/
def parse_azw3 : String → Except Unit (Option LocalEbook) :=
  fun _ => Except.error ()

/-- One entry of the kindle side-cache index (values of the JSON mapping
loaded in sebsync): id and title, and the stored modification timestamp,
already decoded; none models a value on which fromisoformat raises
(missing or malformed), which the scan reports as Unknown. -/
structure IndexEntry where
  id : String
  title : String
  modified : Option Int
deriving DecidableEq

/-- One file enumerated by books.glob of the azw3 pattern: its path and
the result of calculate_hash on it (error models a raised exception). -/
structure KindleFile where
  path : String
  hash : Except Unit String

/-- Result of the local-library scan: the collected records and reported
events, or a crash of the scan itself. -/
inductive ScanResult
  | ok (ebooks : List LocalEbook) (events : List Event)
  | crash
deriving DecidableEq

/-- Loop body of the kindle branch of get_local_ebooks: hash each file
(a raised exception reports Unknown and continues), skip files whose
hash is not in the index, report Unknown when building the record raises
in fromisoformat, and otherwise append the record. -/
def scan_kindle_step (index : List (String × IndexEntry))
    (acc : List LocalEbook × List Event) (f : KindleFile) :
    List LocalEbook × List Event :=
  match f.hash with
  | Except.error _ => (acc.1, acc.2 ++ [Event.report f.path Verdict.unknown])
  | Except.ok h =>
    match index.lookup h with
    | none => acc
    | some e =>
      match e.modified with
      | none => (acc.1, acc.2 ++ [Event.report f.path Verdict.unknown])
      | some m => (acc.1 ++ [LocalEbook.mk e.id e.title f.path m], acc.2)

/-- Embedding of get_local_ebooks in sebsync.py.  The kindle branch
iterates over the enumerated azw3 files with scan_kindle_step.  The
non-kindle branch of the source contains no loop at all: its body
references the name path, which is never bound in that branch, so no
file is enumerated and the branch raises UnboundLocalError (modelled as
crash) for every books directory. -/
def get_local_ebooks (kindle : Bool) (index : List (String × IndexEntry))
    (files : List KindleFile) : ScanResult :=
  if kindle then
    let acc := files.foldl (scan_kindle_step index) ([], [])
    ScanResult.ok acc.1 acc.2
  else ScanResult.crash

/-- Loop body of the matching-local-ebooks loop of sebsync (lines
457-488): the accumulator carries the events emitted so far and the
download_new flag.  different stands for the result of
books_are_different on the pair. -/
def process_step (opts : Opts) (different : LocalEbook → RemoteEbook → Bool)
    (re : RemoteEbook) (naming : Naming) (acc : List Event × Bool)
    (b : LocalEbook) : List Event × Bool :=
  let _ := naming
  if opts.update then
    if opts.forceUpdate || different b re then
      (acc.1 ++ [Event.download re.href b.path Verdict.update], false)
    else
      (acc.1 ++ (if opts.verbose then [Event.report b.path Verdict.current] else []),
       false)
  else
    if different b re then
      (acc.1 ++ [if opts.remove then Event.report b.path Verdict.removed
                 else Event.report b.path Verdict.outdated],
       acc.2)
    else
      (acc.1 ++ (if opts.verbose then [Event.report b.path Verdict.current] else []),
       false)

/-- Embedding of the per-remote-entry body of sebsync's first loop
(lines 453-498): filter the matching local ebooks, run the match loop
threading download_new (initially true), and when download_new survives
emit a NEW download to the synthesized path in the downloads directory.
The kindle index bookkeeping of that loop is side state not modelled
here. -/
def sebsync_process_remote (opts : Opts)
    (different : LocalEbook → RemoteEbook → Bool) (naming : Naming)
    (locals : List LocalEbook) (re : RemoteEbook) : List Event :=
  let matching := locals.filter (fun b => b.id == re.id)
  let r := matching.foldl (process_step opts different re naming) ([], true)
  r.1 ++ (if r.2 then
    [Event.download re.href (opts.downloads ++ "/" ++ ebook_filename naming re)
      Verdict.new]
    else [])

/-- Embedding of the per-local-ebook body of sebsync's second loop
(lines 500-511): a local ebook whose identifier is not a key of
remote_ebooks is checked with is_deprecated; deprecated ebooks are
removed or reported OUTDATED per the remove option, others are reported
EXTRA.  status and location stand for the deprecation HEAD response. -/
def sebsync_process_orphan (opts : Opts) (remoteKeys : List String)
    (status : Nat) (location : String) (le : LocalEbook) : List Event :=
  if remoteKeys.contains le.id then []
  else if (is_deprecated le status location remoteKeys).1 then
    if opts.remove then [Event.report le.path Verdict.removed]
    else [Event.report le.path Verdict.outdated]
  else [Event.report le.path Verdict.extra]

/-- Embedding of the tail of sebsync (lines 513-541): only for the
kindle type and not under dry_run, enumerate the content hashes of the
azw3 files under the books directory (and the downloads directory when
it differs from the books directory), prune every index entry whose key
is not among them, and save the index; otherwise nothing is saved.
booksHashes and downloadsHashes stand for the hashes of the enumerated
files; the set-difference-and-pop of the source is modelled as a
filter. -/
def sebsync_finalize (kindle dryRun : Bool)
    (index : List (String × IndexEntry)) (booksHashes downloadsHashes : List String)
    (downloadsEqBooks : Bool) : Option (List (String × IndexEntry)) :=
  if kindle && !dryRun then
    let localFiles := booksHashes ++ (if downloadsEqBooks then [] else downloadsHashes)
    some (index.filter (fun kv => localFiles.contains kv.1))
  else none

/-- Whether an event is a NEW-status download_ebook call. -/
def is_new_download : Event → Bool
  | Event.download _ _ Verdict.new => true
  | _ => false

/-- Whether an event list contains a NEW-status download. -/
def has_new_download (evs : List Event) : Bool := evs.any is_new_download

theorem process_step_snd (opts : Opts)
    (different : LocalEbook → RemoteEbook → Bool) (re : RemoteEbook)
    (naming : Naming) (acc : List Event × Bool) (b : LocalEbook) :
    (process_step opts different re naming acc b).2 =
      (acc.2 && (!opts.update && different b re)) := by
  cases hu : opts.update <;> cases hd : different b re <;>
    cases hf : opts.forceUpdate <;>
    simp [process_step, hu, hd, hf]

theorem foldl_process_step_snd (opts : Opts)
    (different : LocalEbook → RemoteEbook → Bool) (re : RemoteEbook)
    (naming : Naming) :
    ∀ (l : List LocalEbook) (acc : List Event × Bool),
      (l.foldl (process_step opts different re naming) acc).2 =
        (acc.2 && l.all (fun b => !opts.update && different b re)) := by
  intro l
  induction l with
  | nil => intro acc; simp
  | cons b t ih =>
    intro acc
    simp only [List.foldl_cons, List.all_cons]
    rw [ih, process_step_snd, Bool.and_assoc]

theorem process_step_fst_no_new (opts : Opts)
    (different : LocalEbook → RemoteEbook → Bool) (re : RemoteEbook)
    (naming : Naming) (acc : List Event × Bool) (b : LocalEbook) :
    has_new_download (process_step opts different re naming acc b).1 =
      has_new_download acc.1 := by
  cases hu : opts.update <;> cases hd : different b re <;>
    cases hf : opts.forceUpdate <;> cases hv : opts.verbose <;>
    cases hr : opts.remove <;>
    simp [process_step, hu, hd, hf, hv, hr, has_new_download,
      is_new_download, List.any_append]

theorem foldl_process_step_no_new (opts : Opts)
    (different : LocalEbook → RemoteEbook → Bool) (re : RemoteEbook)
    (naming : Naming) :
    ∀ (l : List LocalEbook) (acc : List Event × Bool),
      has_new_download (l.foldl (process_step opts different re naming) acc).1 =
        has_new_download acc.1 := by
  intro l
  induction l with
  | nil => intro acc; rfl
  | cons b t ih =>
    intro acc
    simp only [List.foldl_cons]
    rw [ih, process_step_fst_no_new]

theorem all_filter_self {α : Type} (p : α → Bool) :
    ∀ l : List α, (l.filter p).all p = true := by
  intro l
  induction l with
  | nil => rfl
  | cons a t ih => cases hp : p a <;> simp [List.filter_cons, hp, ih]

/-- Empty filesystem used by concrete instances. -/
def fsEmptyW : FS := fun _ => none

/-- Existence map with every path present, for concrete instances. -/
def exFsW : String → Bool := fun _ => true

/-- Parse behaviour that always returns a record, for concrete
instances. -/
def parseGoodW : String → Except Unit (Option LocalEbook) :=
  fun _ => Except.ok (some (LocalEbook.mk ("a") ("T") ("p") 0))

/-- Destination path used by concrete download instances. -/
def destW : SPath := SPath.mk ("dl/book") (".epub")

/-- Download input with a non-200 response. -/
def inpFailW : DlIn := DlIn.mk ("u") false 500 ["aa"] none parseGoodW

/-- Download input that completes and verifies. -/
def inpOkW : DlIn := DlIn.mk ("u") false 200 ["aa", "bb"] none parseGoodW

/-- Download input under dry run. -/
def dryInpW : DlIn := DlIn.mk ("u") true 200 ["aa"] none parseGoodW

/-- Destination and input of a complete kindle azw3 download. -/
def azw3DestW : SPath := SPath.mk ("dl/book") (".azw3")

/-- Input of a complete kindle azw3 download: 200 response, all chunks
written, no interruption, parsed by get_local_ebook_metadata's behaviour
on a non-zip azw3 file. -/
def azw3InpW : DlIn := DlIn.mk ("u") false 200 ["azw3bytes"] none parse_azw3

/-- Options with update mode, force, remove, dry run and verbose all
disabled, for concrete instances. -/
def optsW : Opts := Opts.mk false false false false false ("dl")

/-- Classifier oracle declaring every pair different. -/
def diffTrueW : LocalEbook → RemoteEbook → Bool := fun _ _ => true

/-- Local record matching remote entry rbA. -/
def lbA : LocalEbook := LocalEbook.mk ("a") ("T") ("b/a.epub") 0

/-- Remote entry matched by local record lbA. -/
def rbA : RemoteEbook := RemoteEbook.mk ("a") ("T") ("Auth") ("http://x/a.epub") 5

/-- Side-cache index with one entry, for concrete scan instances. -/
def scanIndexW : List (String × IndexEntry) :=
  [("h1", IndexEntry.mk ("id1") ("T1") (some 100))]

/-- C1: for every local record whose identifier is absent from the
remote catalog snapshot, if the redirect-non-following HEAD request to
the identifier's URL returns the permanent-redirect status 301 and the
redirect target, re-wrapped into the catalog's identifier form by
prepending "url:", is a key of the snapshot, then is_deprecated returns
true and the orphan loop reports the record OUTDATED (or REMOVED under
the remove option), never EXTRA. -/
theorem deprecation_reports_outdated (opts : Opts) (le : LocalEbook)
    (status : Nat) (location : String) (keys : List String)
    (h1 : keys.contains le.id = false) (h2 : status = 301)
    (h3 : keys.contains ("url:" ++ location) = true) :
    (is_deprecated le status location keys).1 = true ∧
    sebsync_process_orphan opts keys status location le =
      (if opts.remove then [Event.report le.path Verdict.removed]
       else [Event.report le.path Verdict.outdated]) ∧
    (sebsync_process_orphan opts keys status location le).contains
      (Event.report le.path Verdict.extra) = false := by
  have h1m : ¬ le.id ∈ keys := by simpa using h1
  have h3m : ("url:" ++ location) ∈ keys := by simpa using h3
  have hd : (is_deprecated le status location keys).1 = true := by
    simp [is_deprecated, h2, h3m]
  refine ⟨hd, ?_, ?_⟩
  · simp [sebsync_process_orphan, h1m, hd]
  · simp only [sebsync_process_orphan, hd]
    cases hr : opts.remove <;> simp [h1m]

/-- Witness for C1 at a concrete orphan record and snapshot. -/
theorem deprecation_reports_outdated_witness :
    (is_deprecated (LocalEbook.mk ("https://a") ("T") ("a.epub") 0) 301
      ("https://b") ["url:https://b"]).1 = true ∧
    sebsync_process_orphan optsW ["url:https://b"] 301 ("https://b")
      (LocalEbook.mk ("https://a") ("T") ("a.epub") 0) =
      [Event.report ("a.epub") Verdict.outdated] ∧
    (sebsync_process_orphan optsW ["url:https://b"] 301 ("https://b")
      (LocalEbook.mk ("https://a") ("T") ("a.epub") 0)).contains
      (Event.report ("a.epub") Verdict.extra) = false :=
  deprecation_reports_outdated optsW (LocalEbook.mk ("https://a") ("T") ("a.epub") 0)
    301 ("https://b") ["url:https://b"] (by decide) rfl (by decide)

/-- C2: the claim that the scan enumerates files for every format and
survives per-file parse failures fails on the code.  The non-kindle
branch of get_local_ebooks contains no loop (it references the never
bound name path and raises UnboundLocalError), so for every non-kindle
format the scan enumerates nothing and crashes; the kindle branch, in
contrast, does report a throwing file Unknown and continue. -/
theorem scan_nonkindle_crashes :
    get_local_ebooks false scanIndexW
      [KindleFile.mk ("b/x.epub") (Except.ok ("h1"))] = ScanResult.crash ∧
    get_local_ebooks true scanIndexW
      [KindleFile.mk ("b/y.azw3") (Except.error ()),
       KindleFile.mk ("b/x.azw3") (Except.ok ("h1"))] =
      ScanResult.ok [LocalEbook.mk ("id1") ("T1") ("b/x.azw3") 100]
        [Event.report ("b/y.azw3") Verdict.unknown] := by
  exact ⟨rfl, by decide⟩

/-- Attempt statuses where attempts 1 to 9 are rate limited and the
tenth, final allowed attempt succeeds with 200. -/
def nine429 : Nat → Nat := fun r => if r ≤ 9 then 429 else 200

/-- Attempt statuses where attempts 1 to 8 are rate limited and the
ninth attempt succeeds with 200. -/
def eight429 : Nat → Nat := fun r => if r ≤ 8 then 429 else 200

/-- C3: the claim that a non-rate-limited response within the allowed
attempts, including on the final allowed attempt, is returned to the
caller fails on the code.  When the loop variable reaches retry_count
the request helper raises "Too many retries. Aborting." even though the
tenth and final attempt returned 200; a 200 on the ninth attempt is
still returned. -/
theorem request_final_attempt_aborts :
    request nine429 = Except.error ("Too many retries. Aborting.") ∧
    nine429 retry_count = 200 ∧
    request eight429 = Except.ok 200 := by
  exact ⟨rfl, rfl, rfl⟩

/-- C4: books_are_different follows the three-tier short-circuiting
procedure: equal metadata timestamps give Current (false) with no
network operation; otherwise a remote update time beyond the file mtime
gives Different (true) with no network operation; otherwise exactly one
HEAD request is issued and the result is Different exactly when the
reported Content-Length differs from the file size. -/
theorem classify_three_tiers (l : LocalEbook) (r : RemoteEbook) (env : StatEnv) :
    (r.updated = l.modified → books_are_different l r env = (false, [])) ∧
    (r.updated ≠ l.modified → env.fileMtime < r.updated →
      books_are_different l r env = (true, [])) ∧
    (r.updated ≠ l.modified → ¬ env.fileMtime < r.updated →
      books_are_different l r env =
        (decide (env.contentLength ≠ env.fileSize), [NetOp.head r.href])) := by
  refine ⟨?_, ?_, ?_⟩
  · intro h1
    simp [books_are_different, h1]
  · intro h1 h2
    simp [books_are_different, h1, h2]
  · intro h1 h2
    by_cases h3 : env.contentLength = env.fileSize <;>
      simp [books_are_different, h1, h2, h3]

/-- Witness for C4 at one concrete instance per tier. -/
theorem classify_three_tiers_witness :
    books_are_different (LocalEbook.mk ("a") ("T") ("p") 5)
      (RemoteEbook.mk ("a") ("T") ("A") ("u") 5) (StatEnv.mk 0 10 10) = (false, []) ∧
    books_are_different (LocalEbook.mk ("a") ("T") ("p") 5)
      (RemoteEbook.mk ("a") ("T") ("A") ("u") 7) (StatEnv.mk 0 10 10) = (true, []) ∧
    books_are_different (LocalEbook.mk ("a") ("T") ("p") 3)
      (RemoteEbook.mk ("a") ("T") ("A") ("u") 5) (StatEnv.mk 9 10 11) =
      (true, [NetOp.head ("u")]) :=
  ⟨(classify_three_tiers (LocalEbook.mk ("a") ("T") ("p") 5)
      (RemoteEbook.mk ("a") ("T") ("A") ("u") 5) (StatEnv.mk 0 10 10)).1 rfl,
   (classify_three_tiers (LocalEbook.mk ("a") ("T") ("p") 5)
      (RemoteEbook.mk ("a") ("T") ("A") ("u") 7) (StatEnv.mk 0 10 10)).2.1
     (by decide) (by decide),
   (classify_three_tiers (LocalEbook.mk ("a") ("T") ("p") 3)
      (RemoteEbook.mk ("a") ("T") ("A") ("u") 5) (StatEnv.mk 9 10 11)).2.2
     (by decide) (by decide)⟩

/-- C5: provided the destination does not itself carry the reserved
.sebsync extension, the temp path differs from the destination, every
failing download_ebook outcome (non-200 response, interruption, corrupt
verification) leaves the destination untouched, and a normal non-dry-run
return means the destination holds the complete downloaded content and
the re-parse verification succeeded. -/
theorem download_atomicity (fs : FS) (dest : SPath) (inp : DlIn)
    (h : dest.suffix ≠ sebsync_suffix) :
    withSuffix dest sebsync_suffix ≠ dest ∧
    ((download_ebook fs dest inp).1.isOk = false →
      (download_ebook fs dest inp).1.fs dest = fs dest) ∧
    (inp.dryRun = false → (download_ebook fs dest inp).1.isOk = true →
      (download_ebook fs dest inp).1.fs dest = some (concatChunks inp.chunks) ∧
      parse_ok (inp.parse (concatChunks inp.chunks)) = true) := by
  have hne : ¬ (dest = withSuffix dest sebsync_suffix) := by
    intro he
    exact h (congrArg SPath.suffix he)
  refine ⟨fun he => h (congrArg SPath.suffix he).symm, ?_, ?_⟩
  · intro hk
    cases hd : inp.dryRun with
    | true => simp [download_ebook, hd, DlOut.isOk] at hk
    | false =>
      by_cases hs : inp.status = 200
      · cases hkill : inp.kill with
        | some k =>
          simp [download_ebook, hd, hs, hkill, DlOut.fs, fsUpdate, hne]
        | none =>
          cases hp : inp.parse (concatChunks inp.chunks) with
          | error e =>
            simp [download_ebook, hd, hs, hkill, hp, DlOut.fs, fsUpdate, hne]
          | ok v =>
            cases v with
            | none =>
              simp [download_ebook, hd, hs, hkill, hp, DlOut.fs, fsUpdate, hne]
            | some m =>
              simp [download_ebook, hd, hs, hkill, hp, DlOut.isOk] at hk
      · simp [download_ebook, hd, hs, DlOut.fs]
  · intro hd hk
    by_cases hs : inp.status = 200
    · cases hkill : inp.kill with
      | some k => simp [download_ebook, hd, hs, hkill, DlOut.isOk] at hk
      | none =>
        cases hp : inp.parse (concatChunks inp.chunks) with
        | error e => simp [download_ebook, hd, hs, hkill, hp, DlOut.isOk] at hk
        | ok v =>
          cases v with
          | none => simp [download_ebook, hd, hs, hkill, hp, DlOut.isOk] at hk
          | some m =>
            constructor
            · simp [download_ebook, hd, hs, hkill, hp, DlOut.fs, fsUpdate]
            · simp [parse_ok, hp]
    · simp [download_ebook, hd, hs, DlOut.isOk] at hk

/-- Witness for C5 at a failing and at a succeeding concrete download. -/
theorem download_atomicity_witness :
    (download_ebook fsEmptyW destW inpFailW).1.fs destW = fsEmptyW destW ∧
    (download_ebook fsEmptyW destW inpOkW).1.fs destW =
      some (concatChunks inpOkW.chunks) ∧
    parse_ok (inpOkW.parse (concatChunks inpOkW.chunks)) = true :=
  ⟨(download_atomicity fsEmptyW destW inpFailW (by decide)).2.1 rfl,
   ((download_atomicity fsEmptyW destW inpOkW (by decide)).2.2 rfl rfl).1,
   ((download_atomicity fsEmptyW destW inpOkW (by decide)).2.2 rfl rfl).2⟩

/-- C6: the claim that the post-download re-parse is skipped for the
opaque azw3 format fails on the code.  download_ebook re-parses the temp
file unconditionally with get_local_ebook_metadata, which opens it as a
zip archive; on a completely downloaded azw3 file (200 response, all
chunks written, no interruption) that parse raises, so the install fails
with the corrupt-download error, the destination stays untouched and the
temp file remains. -/
theorem kindle_download_always_corrupt :
    (download_ebook fsEmptyW azw3DestW azw3InpW).1.isCorrupt = true ∧
    (download_ebook fsEmptyW azw3DestW azw3InpW).1.fs azw3DestW = none ∧
    (download_ebook fsEmptyW azw3DestW azw3InpW).1.fs
      (withSuffix azw3DestW sebsync_suffix) = some (concatChunks azw3InpW.chunks) ∧
    azw3InpW.status = 200 ∧ azw3InpW.kill = none := by
  exact ⟨rfl, rfl, rfl, rfl, rfl⟩

/-- C7 counterexample: with one matching local record, update mode
disabled and the pair classified Different, the engine both reports the
match OUTDATED and performs a NEW download for the same entry, so a NEW
install can occur although at least one local record matches. -/
theorem new_download_with_match_counterexample :
    has_new_download (sebsync_process_remote optsW diffTrueW Naming.standard
      [lbA] rbA) = true ∧
    ([lbA].filter (fun b => b.id == rbA.id)).isEmpty = false ∧
    sebsync_process_remote optsW diffTrueW Naming.standard [lbA] rbA =
      [Event.report ("b/a.epub") Verdict.outdated,
       Event.download ("http://x/a.epub") ("dl/a.epub") Verdict.new] := by
  exact ⟨by decide, by decide, by decide⟩

/-- C7 amended: a NEW download for a remote entry occurs exactly when
the entry has no matching local record, or update mode is disabled and
every matching local record is classified Different; in particular with
update mode enabled and at least one match, or with some match not
Different, no NEW install is performed. -/
theorem new_download_characterization (opts : Opts)
    (different : LocalEbook → RemoteEbook → Bool) (naming : Naming)
    (locals : List LocalEbook) (re : RemoteEbook) :
    has_new_download (sebsync_process_remote opts different naming locals re) =
      (locals.filter (fun b => b.id == re.id)).all
        (fun b => !opts.update && different b re) := by
  have h1 := foldl_process_step_no_new opts different re naming
    (locals.filter (fun b => b.id == re.id)) ([], true)
  have h2 := foldl_process_step_snd opts different re naming
    (locals.filter (fun b => b.id == re.id)) ([], true)
  rw [Bool.true_and] at h2
  unfold sebsync_process_remote
  simp only [has_new_download, List.any_append] at h1 ⊢
  rw [h1, ← h2]
  cases hr : ((locals.filter (fun b => b.id == re.id)).foldl
      (process_step opts different re naming) ([], true)).2 <;>
    simp [hr, is_new_download]

/-- C8 counterexample: sortable_author does not produce the multi-word
surname grouping the claim states for Ursula K. Le Guin. -/
theorem sortable_author_multiword_counterexample :
    ¬ (sortable_author ("Ursula K. Le Guin") = "Le Guin, Ursula K.") := by
  decide

/-- C8 amended: sortable_author moves a recognised trailing suffix token
into the surname group, but treats only the final remaining token as the
surname, so a multi-word surname is split: John Smith Jr. becomes
Smith, John, Jr. as claimed, while Ursula K. Le Guin becomes
Guin, Ursula K. Le rather than Le Guin, Ursula K. -/
theorem sortable_author_behavior :
    sortable_author ("Ursula K. Le Guin") = "Guin, Ursula K. Le" ∧
    sortable_author ("John Smith Jr.") = "Smith, John, Jr." := by
  exact ⟨by decide, by decide⟩

/-- C9: at the end of a non-dry kindle run the index is saved and every
key of the saved index is among the content hashes of the files
enumerated from the books directory (and the downloads directory when it
differs): the prune step removes every other entry. -/
theorem side_cache_prune_invariant (index : List (String × IndexEntry))
    (booksHashes downloadsHashes : List String) (deq : Bool) :
    (sebsync_finalize true false index booksHashes downloadsHashes deq).isSome =
      true ∧
    ((sebsync_finalize true false index booksHashes downloadsHashes deq).getD
      []).all (fun kv =>
        (booksHashes ++ (if deq then [] else downloadsHashes)).contains kv.1) =
      true := by
  constructor
  · simp [sebsync_finalize]
  · simp only [sebsync_finalize, Bool.and_self, Bool.not_false, Bool.and_true,
      if_true, Option.getD_some]
    exact all_filter_self _ index

/-- C10: dry-run mode suppresses filesystem mutation but not network
traffic: the tier-3 classification still issues its HEAD request, the
deprecation check always issues one HEAD request, download_ebook under
dry run returns with the filesystem unchanged and no request, remove
under dry run does not unlink, and the side-cache save is skipped. -/
theorem dry_run_frame :
    (∀ (l : LocalEbook) (r : RemoteEbook) (env : StatEnv),
      r.updated ≠ l.modified → ¬ env.fileMtime < r.updated →
      (books_are_different l r env).2 = [NetOp.head r.href]) ∧
    (∀ (le : LocalEbook) (status : Nat) (location : String)
      (keys : List String),
      (is_deprecated le status location keys).2 = [NetOp.head le.id]) ∧
    (∀ (fs : FS) (p : SPath) (inp : DlIn), inp.dryRun = true →
      download_ebook fs p inp = (DlOut.ok fs, [])) ∧
    (∀ (fs : String → Bool) (p q : String), (remove true fs p).1 q = fs q) ∧
    (∀ (index : List (String × IndexEntry)) (bh dh : List String) (deq : Bool),
      sebsync_finalize true true index bh dh deq = none) := by
  refine ⟨?_, ?_, ?_, ?_, ?_⟩
  · intro l r env h1 h2
    by_cases h3 : env.contentLength = env.fileSize <;>
      simp [books_are_different, h1, h2, h3]
  · intro le status location keys
    rfl
  · intro fs p inp hd
    simp [download_ebook, hd]
  · intro fs p q
    rfl
  · intro index bh dh deq
    rfl

/-- Witness for C10 at concrete instances of each conjunct. -/
theorem dry_run_frame_witness :
    (books_are_different (LocalEbook.mk ("a") ("T") ("p") 3)
      (RemoteEbook.mk ("a") ("T") ("A") ("u") 5) (StatEnv.mk 9 10 11)).2 =
      [NetOp.head ("u")] ∧
    (is_deprecated (LocalEbook.mk ("https://a") ("T") ("p") 0) 200 ("loc")
      []).2 = [NetOp.head ("https://a")] ∧
    download_ebook fsEmptyW destW dryInpW = (DlOut.ok fsEmptyW, []) ∧
    (remove true exFsW ("b/a.epub")).1 ("b/a.epub") = exFsW ("b/a.epub") ∧
    sebsync_finalize true true scanIndexW [] [] false = none :=
  ⟨dry_run_frame.1 (LocalEbook.mk ("a") ("T") ("p") 3)
     (RemoteEbook.mk ("a") ("T") ("A") ("u") 5) (StatEnv.mk 9 10 11)
     (by decide) (by decide),
   dry_run_frame.2.1 (LocalEbook.mk ("https://a") ("T") ("p") 0) 200 ("loc") [],
   dry_run_frame.2.2.1 fsEmptyW destW dryInpW rfl,
   dry_run_frame.2.2.2.1 exFsW ("b/a.epub") ("b/a.epub"),
   dry_run_frame.2.2.2.2 scanIndexW [] [] false⟩

end Sebsync
